import Mathlib

/-!
Verification of the thread-local runtime control layer in
`src/coreclr/nativeaot/Runtime/thread.inl`: the cooperative/preemptive
mode state machine, the sampling-augmented allocation context, and the
GC-frame registration list.

Modelling conventions:
* Raw pointers are natural numbers; a nullable `PInvokeTransitionFrame*`
  is `Option Nat` (`none` = NULL).
* Boundary frames are modelled by value; functions that mutate a frame
  through a pointer return the updated frame contents.
* `ASSERT(e)` is a debug-build fatal check: each modelled function also
  returns a Bool recording whether every assertion on the taken path
  held (true = no assertion fired).  Release builds ignore assertions,
  so the state/result components give the release-mode semantics.
* External collaborators (`ThreadStore::IsTrapThreadsRequested`,
  `IsGCSpecial`) are inputs carried in the modelled thread state.
* `double` arithmetic in the sampling engine is idealised over the
  reals; the C `(uint32_t)` cast of a nonnegative double truncates
  toward zero, i.e. `Nat.floor`.
-/

namespace ThreadInl

/-- Thread state flag bits.  `thread.h` is not part of the sources;
modelled from the spec: `stateFlags` is a "bitset including at least
attached and do-not-trigger-GC".  Values chosen as distinct bits. -/
def TSF_Attached : Nat := 0x01

/-- See `TSF_Attached`; distinct bit for the do-not-trigger-GC flag. -/
def TSF_DoNotTriggerGc : Nat := 0x10

/-- Per-thread state visible to `thread.inl`, together with the external
inputs the inlined functions read.  `trapThreadsRequested` models the
global `ThreadStore::IsTrapThreadsRequested()` (suspension requested);
`gcSpecial` models `IsGCSpecial()` (defined outside the sources;
modelled from the spec: "the thread is GC-special (collector worker
threads)"). -/
structure ThreadState where
  m_pTransitionFrame : Option Nat
  m_ThreadStateFlags : Nat
  m_pStackLow : Nat
  m_pStackHigh : Nat
  threadId : Nat
  trapThreadsRequested : Bool
  gcSpecial : Bool
deriving DecidableEq, Repr

/-- `Thread::IsStateSet`: `(m_ThreadStateFlags & flags) == flags`. -/
def IsStateSet (s : ThreadState) (flags : Nat) : Bool :=
  (s.m_ThreadStateFlags &&& flags) == flags

/-- `Thread::IsDoNotTriggerGcSet`. -/
def IsDoNotTriggerGcSet (s : ThreadState) : Bool :=
  IsStateSet s TSF_DoNotTriggerGc

/-- `Thread::IsCurrentThreadInCooperativeMode`:
`m_pTransitionFrame == NULL`.  (The owning-thread `ASSERT` is vacuous in
this single-thread model.) -/
def IsCurrentThreadInCooperativeMode (s : ThreadState) : Bool :=
  s.m_pTransitionFrame.isNone

/-- `Thread::IsWithinStackBounds` (release semantics):
`(m_pStackLow <= p) && (p < m_pStackHigh)`. -/
def IsWithinStackBounds (s : ThreadState) (p : Nat) : Bool :=
  decide (s.m_pStackLow ≤ p) && decide (p < s.m_pStackHigh)

/-- The `ASSERT((m_pStackLow != 0) && (m_pStackHigh != 0))` guarding
`Thread::IsWithinStackBounds`. -/
def IsWithinStackBoundsAssert (s : ThreadState) : Bool :=
  decide (s.m_pStackLow ≠ 0) && decide (s.m_pStackHigh ≠ 0)

/-- `ReversePInvokeFrame`: holds the transition frame that was active
before the native-to-managed call. -/
structure ReversePInvokeFrame where
  m_savedPInvokeTransitionFrame : Option Nat
deriving DecidableEq, Repr

/-- `PInvokeTransitionFrame` contents as far as `thread.inl` writes
them: only the `m_pThread` back-pointer is stored here. -/
structure PInvokeTransitionFrame where
  m_pThread : Option Nat
deriving DecidableEq, Repr

/-- Result of `Thread::InlineTryFastReversePInvoke`: the Bool result,
the updated `ReversePInvokeFrame`, the updated thread state, and
whether the assertions on the taken path held. -/
structure ReversePInvokeResult where
  success : Bool
  frame : ReversePInvokeFrame
  state : ThreadState
  assertsOk : Bool
deriving DecidableEq, Repr

/-- `Thread::InlineTryFastReversePInvoke`.  Mirrors the source
line-for-line: save `m_pTransitionFrame` into the frame; the
do-not-trigger-GC carve-out (with `ASSERT(IsTrapThreadsRequested)`)
returns true with no transition; unattached and already-cooperative
threads fail; `ASSERT(!IsGCSpecial())` on the ordinary path; store NULL
(enter cooperative), then re-check the trap flag and revert on a
pending suspension. -/
def InlineTryFastReversePInvoke (pFrame : ReversePInvokeFrame) (s : ThreadState) :
    ReversePInvokeResult :=
  let pFrame1 : ReversePInvokeFrame :=
    { pFrame with m_savedPInvokeTransitionFrame := s.m_pTransitionFrame }
  if IsDoNotTriggerGcSet s then
    { success := true, frame := pFrame1, state := s,
      assertsOk := s.trapThreadsRequested }
  else if !IsStateSet s TSF_Attached then
    { success := false, frame := pFrame1, state := s, assertsOk := true }
  else if IsCurrentThreadInCooperativeMode s then
    { success := false, frame := pFrame1, state := s, assertsOk := true }
  else
    let ok := !s.gcSpecial
    let s1 : ThreadState := { s with m_pTransitionFrame := none }
    if s.trapThreadsRequested then
      { success := false, frame := pFrame1,
        state := { s1 with
          m_pTransitionFrame := pFrame1.m_savedPInvokeTransitionFrame },
        assertsOk := ok }
    else
      { success := true, frame := pFrame1, state := s1, assertsOk := ok }

/-- `Thread::InlineReversePInvokeReturn`: unconditionally restore
`m_pTransitionFrame` from the frame's saved value. -/
def InlineReversePInvokeReturn (pFrame : ReversePInvokeFrame) (s : ThreadState) :
    ThreadState :=
  { s with m_pTransitionFrame := pFrame.m_savedPInvokeTransitionFrame }

/-- `Thread::InlinePInvoke` applied to a frame living at address
`frameAddr` with current contents `frame`: store the thread pointer
into the frame, then publish the frame address into
`m_pTransitionFrame`.  Returns (updated frame, updated state, whether
`ASSERT(!IsDoNotTriggerGcSet() || IsTrapThreadsRequested())` held). -/
def InlinePInvoke (frame : PInvokeTransitionFrame) (frameAddr : Nat)
    (s : ThreadState) : PInvokeTransitionFrame × ThreadState × Bool :=
  let assertsOk := !IsDoNotTriggerGcSet s || s.trapThreadsRequested
  let frame1 : PInvokeTransitionFrame := { frame with m_pThread := some s.threadId }
  (frame1, { s with m_pTransitionFrame := some frameAddr }, assertsOk)

/-- Observable actions of `Thread::InlinePInvokeReturn`, in program
order: the volatile store to `m_pTransitionFrame`, the read of the
global trap flag, and the call into the external blocking rendezvous
`RhpWaitForGC2`. -/
inductive Event where
  | storeTransitionFrame (v : Option Nat)
  | checkTrap (result : Bool)
  | waitForGC2 (frameAddr : Nat)
deriving DecidableEq, Repr

/-- `Thread::InlinePInvokeReturn` on the frame at `frameAddr`: store
NULL into `m_pTransitionFrame`, then check `IsTrapThreadsRequested()`
and, if set, call `RhpWaitForGC2(pFrame)`.  Returns the state after the
store together with the ordered event trace; `RhpWaitForGC2` is an
external collaborator and is recorded as an event. -/
def InlinePInvokeReturn (frameAddr : Nat) (s : ThreadState) :
    ThreadState × List Event :=
  let s1 : ThreadState := { s with m_pTransitionFrame := none }
  let tr :=
    Event.storeTransitionFrame none ::
      Event.checkTrap s.trapThreadsRequested ::
        (if s.trapThreadsRequested then [Event.waitForGC2 frameAddr] else [])
  (s1, tr)

/-- State of the intrusive GC-frame-registration list: the thread's
head pointer `m_pGCFrameRegistrations` and the `m_pNext` field of each
`GCFrameRegistration` node (nodes named by their address). -/
structure GCFrameRegState where
  m_pGCFrameRegistrations : Option Nat
  next : Nat → Option Nat

/-- `Thread::PushGCFrameRegistration`: `node->m_pNext = head; head = node`. -/
def PushGCFrameRegistration (node : Nat) (s : GCFrameRegState) : GCFrameRegState :=
  { m_pGCFrameRegistrations := some node,
    next := fun n => if n = node then s.m_pGCFrameRegistrations else s.next n }

/-- `Thread::PopGCFrameRegistration` (release semantics plus the
`ASSERT(m_pGCFrameRegistrations == pRegistration)`): the head pointer
is set to `node->m_pNext`; the Bool reports whether the assertion that
`node` is the current head held. -/
def PopGCFrameRegistration (node : Nat) (s : GCFrameRegState) :
    GCFrameRegState × Bool :=
  ({ s with m_pGCFrameRegistrations := s.next node },
    s.m_pGCFrameRegistrations == some node)

/-- `SamplingDistributionMean = 100 * 1024`. -/
def SamplingDistributionMean : Nat := 100 * 1024

/-- `ee_alloc_context` together with the `gc_alloc_context` it wraps
(`alloc_ptr`, `alloc_limit`), pointers as naturals. -/
structure ee_alloc_context where
  alloc_ptr : Nat
  alloc_limit : Nat
  combined_limit : Nat
deriving DecidableEq, Repr

/-- `ee_alloc_context::PerThreadRandom::NextDouble`:
`value * (1.0/(UINT32_MAX+1.0))` for `value` the 32-bit PRNG output
(the xoshiro128++ generator itself is external `minipal` code). -/
noncomputable def NextDouble (value : Nat) : ℝ :=
  (value : ℝ) * (1 / 4294967296)

/-- `ee_alloc_context::ComputeGeometricRandom` at draw `probability`:
`(uint32_t)(-log(1 - probability) * SamplingDistributionMean)`.  The
cast truncates the nonnegative double toward zero, i.e. `Nat.floor`
(for the PRNG-produced probabilities the product is far below 2^32). -/
noncomputable def ComputeGeometricRandom (probability : ℝ) : Nat :=
  ⌊-Real.log (1 - probability) * (SamplingDistributionMean : ℝ)⌋₊

/-- `ee_alloc_context::UpdateCombinedLimit` with the random draw made
explicit: disabled sampling copies `alloc_limit`; enabled sampling
draws the geometric budget and sets
`combined_limit = alloc_ptr + min(samplingBudget, size)` with
`size = alloc_limit - alloc_ptr` (Nat subtraction; the source operates
on pointers with `alloc_ptr ≤ alloc_limit`). -/
noncomputable def UpdateCombinedLimit (samplingEnabled : Bool)
    (probability : ℝ) (c : ee_alloc_context) : ee_alloc_context :=
  if !samplingEnabled then
    { c with combined_limit := c.alloc_limit }
  else
    let samplingBudget := ComputeGeometricRandom probability
    let size := c.alloc_limit - c.alloc_ptr
    { c with combined_limit := c.alloc_ptr + min samplingBudget size }

/-- The budget formula as the spec states it: `ceil` instead of the
source's truncating cast.  Kept separate so the two can be compared. -/
noncomputable def specCeilGeometricBudget (probability : ℝ) : Nat :=
  ⌈-Real.log (1 - probability) * (SamplingDistributionMean : ℝ)⌉₊

/-- An attached, GC-special thread in preemptive mode with the
do-not-trigger-GC flag clear and no suspension pending. -/
def gcSpecialState : ThreadState :=
  { m_pTransitionFrame := some 5, m_ThreadStateFlags := TSF_Attached,
    m_pStackLow := 1, m_pStackHigh := 100, threadId := 7,
    trapThreadsRequested := false, gcSpecial := true }

/-- An unattached thread with the do-not-trigger-GC flag clear. -/
def unattachedState : ThreadState :=
  { m_pTransitionFrame := some 5, m_ThreadStateFlags := 0,
    m_pStackLow := 1, m_pStackHigh := 100, threadId := 7,
    trapThreadsRequested := false, gcSpecial := false }

/-- A thread with the do-not-trigger-GC flag set while a suspension is
active (the asserted precondition of the carve-out path). -/
def dntgState : ThreadState :=
  { m_pTransitionFrame := some 5, m_ThreadStateFlags := TSF_DoNotTriggerGc,
    m_pStackLow := 1, m_pStackHigh := 100, threadId := 7,
    trapThreadsRequested := true, gcSpecial := false }

/-- An attached thread in preemptive mode, no suspension pending. -/
def preemptiveState : ThreadState :=
  { m_pTransitionFrame := some 5, m_ThreadStateFlags := TSF_Attached,
    m_pStackLow := 1, m_pStackHigh := 100, threadId := 7,
    trapThreadsRequested := false, gcSpecial := false }

/-- Empty registration list state. -/
def regEmpty : GCFrameRegState := { m_pGCFrameRegistrations := none, next := fun _ => none }

/-- Registration list whose head is node 1. -/
def regHeadOne : GCFrameRegState := { m_pGCFrameRegistrations := some 1, next := fun _ => none }

/-- C1 counterexample: on an attached, GC-special, preemptive thread
with do-not-trigger-GC clear and no trap pending,
`InlineTryFastReversePInvoke` returns true, contradicting the claim
that every call on a GC-special thread returns false (the source only
has a debug `ASSERT(!IsGCSpecial())`, no release-mode check). -/
theorem C1_gc_special_returns_true :
    IsDoNotTriggerGcSet gcSpecialState = false
    ∧ gcSpecialState.gcSpecial = true
    ∧ (InlineTryFastReversePInvoke ⟨none⟩ gcSpecialState).success = true := by
  decide

/-- C1 (amended): with do-not-trigger-GC clear,
`InlineTryFastReversePInvoke` returns false whenever the thread is not
attached or is already in cooperative mode; on a GC-special thread the
ordinary transition path is reached and the debug assertion
`ASSERT(!IsGCSpecial())` fails (release builds perform no GC-special
check). -/
theorem C1_fast_reverse_pinvoke_failures (pFrame : ReversePInvokeFrame)
    (s : ThreadState) (hd : IsDoNotTriggerGcSet s = false) :
    ((IsStateSet s TSF_Attached = false ∨ IsCurrentThreadInCooperativeMode s = true) →
        (InlineTryFastReversePInvoke pFrame s).success = false)
    ∧ (IsStateSet s TSF_Attached = true → IsCurrentThreadInCooperativeMode s = false →
        s.gcSpecial = true →
        (InlineTryFastReversePInvoke pFrame s).assertsOk = false) := by
  constructor
  · rintro (h | h) <;>
      cases hA : IsStateSet s TSF_Attached <;>
        simp [InlineTryFastReversePInvoke, hd, h, hA] at *
  · intro ha hc hg
    cases hT : s.trapThreadsRequested <;>
      simp [InlineTryFastReversePInvoke, hd, ha, hc, hg, hT]

/-- C1 witness: on the concrete unattached thread the fast path fails. -/
theorem C1_fast_reverse_pinvoke_failures_witness :
    (InlineTryFastReversePInvoke ⟨none⟩ unattachedState).success = false :=
  (C1_fast_reverse_pinvoke_failures ⟨none⟩ unattachedState (by decide)).1
    (Or.inl (by decide))

/-- C4: `InlineTryFastReversePInvoke` followed immediately by
`InlineReversePInvokeReturn` on the same frame restores the exact prior
`m_pTransitionFrame`, for every prior value including null and on every
path (carve-out, failure, trap-revert, success). -/
theorem C4_reverse_pinvoke_roundtrip (pFrame : ReversePInvokeFrame)
    (s : ThreadState) :
    (InlineReversePInvokeReturn (InlineTryFastReversePInvoke pFrame s).frame
        (InlineTryFastReversePInvoke pFrame s).state).m_pTransitionFrame
      = s.m_pTransitionFrame := by
  unfold InlineTryFastReversePInvoke InlineReversePInvokeReturn
  repeat' split
  all_goals rfl

/-- C5: `InlinePInvokeReturn` stores NULL into `m_pTransitionFrame`
first and only afterwards checks the trap flag (event order); when a
suspension is requested it calls `RhpWaitForGC2` on the frame, and when
none is pending it performs no wait and leaves the thread cooperative
with a null transition frame. -/
theorem C5_pinvoke_return_order (frameAddr : Nat) (s : ThreadState) :
    (InlinePInvokeReturn frameAddr s).1.m_pTransitionFrame = none
    ∧ (s.trapThreadsRequested = true →
        (InlinePInvokeReturn frameAddr s).2
          = [Event.storeTransitionFrame none, Event.checkTrap true,
             Event.waitForGC2 frameAddr])
    ∧ (s.trapThreadsRequested = false →
        (InlinePInvokeReturn frameAddr s).2
          = [Event.storeTransitionFrame none, Event.checkTrap false]
        ∧ IsCurrentThreadInCooperativeMode (InlinePInvokeReturn frameAddr s).1
            = true) := by
  refine ⟨rfl, ?_, ?_⟩
  · intro h; simp [InlinePInvokeReturn, h]
  · intro h; exact ⟨by simp [InlinePInvokeReturn, h], rfl⟩

/-- C5 witness: concrete no-suspension return ends cooperative. -/
theorem C5_pinvoke_return_order_witness :
    (InlinePInvokeReturn 3 preemptiveState).2
      = [Event.storeTransitionFrame none, Event.checkTrap false]
    ∧ IsCurrentThreadInCooperativeMode (InlinePInvokeReturn 3 preemptiveState).1
        = true :=
  (C5_pinvoke_return_order 3 preemptiveState).2.2 rfl

/-- C6: with the do-not-trigger-GC flag set,
`InlineTryFastReversePInvoke` succeeds trivially, the thread state
(including `m_pTransitionFrame`) is unchanged, and the assertion on
this path holds exactly when a suspension is already requested. -/
theorem C6_dntg_carveout (pFrame : ReversePInvokeFrame) (s : ThreadState)
    (h : IsDoNotTriggerGcSet s = true) :
    (InlineTryFastReversePInvoke pFrame s).success = true
    ∧ (InlineTryFastReversePInvoke pFrame s).state = s
    ∧ ((InlineTryFastReversePInvoke pFrame s).assertsOk = true ↔
        s.trapThreadsRequested = true) := by
  simp [InlineTryFastReversePInvoke, h]

/-- C6 witness: the carve-out on a concrete do-not-trigger-GC thread
during an active suspension. -/
theorem C6_dntg_carveout_witness :
    (InlineTryFastReversePInvoke ⟨none⟩ dntgState).success = true
    ∧ (InlineTryFastReversePInvoke ⟨none⟩ dntgState).state = dntgState :=
  ⟨(C6_dntg_carveout ⟨none⟩ dntgState (by decide)).1,
    (C6_dntg_carveout ⟨none⟩ dntgState (by decide)).2.1⟩

/-- C7: `UpdateCombinedLimit` with sampling disabled always sets
`combined_limit` to `alloc_limit`, for every context and draw. -/
theorem C7_sampling_disabled (U : ℝ) (c : ee_alloc_context) :
    (UpdateCombinedLimit false U c).combined_limit = c.alloc_limit := rfl

/-- C8: `InlinePInvoke` stores the thread pointer into the frame and
publishes the frame into `m_pTransitionFrame`, leaving the thread in
preemptive (non-cooperative) mode; its assertion fails exactly when
do-not-trigger-GC is set without a suspension in progress. -/
theorem C8_inline_pinvoke (frame : PInvokeTransitionFrame) (frameAddr : Nat)
    (s : ThreadState) :
    (InlinePInvoke frame frameAddr s).1.m_pThread = some s.threadId
    ∧ (InlinePInvoke frame frameAddr s).2.1.m_pTransitionFrame = some frameAddr
    ∧ IsCurrentThreadInCooperativeMode (InlinePInvoke frame frameAddr s).2.1
        = false
    ∧ ((InlinePInvoke frame frameAddr s).2.2 = false ↔
        IsDoNotTriggerGcSet s = true ∧ s.trapThreadsRequested = false) := by
  refine ⟨rfl, rfl, rfl, ?_⟩
  cases h : IsDoNotTriggerGcSet s <;>
    cases hT : s.trapThreadsRequested <;>
      simp [InlinePInvoke, h, hT]

/-- C8 witness: the assertion fires on a concrete do-not-trigger-GC
thread with no suspension in progress. -/
theorem C8_inline_pinvoke_witness :
    (InlinePInvoke ⟨none⟩ 3
        { dntgState with trapThreadsRequested := false }).2.2 = false :=
  (C8_inline_pinvoke ⟨none⟩ 3
      { dntgState with trapThreadsRequested := false }).2.2.2.mpr (by decide)

/-- C9: `PushGCFrameRegistration` pushes onto the head and
`PopGCFrameRegistration` pops via the node's next pointer, so a
push/pop pair on any node restores the head and disturbs no other
node's link (LIFO sequences therefore round-trip); popping when the
given node is the head removes the head, and popping a non-head node
fails the debug assertion. -/
theorem C9_gc_frame_registration (node m : Nat) (s t : GCFrameRegState)
    (hm : m ≠ node) (ht : t.m_pGCFrameRegistrations ≠ some node) :
    (PopGCFrameRegistration node
        (PushGCFrameRegistration node s)).1.m_pGCFrameRegistrations
      = s.m_pGCFrameRegistrations
    ∧ (PopGCFrameRegistration node (PushGCFrameRegistration node s)).2 = true
    ∧ (PopGCFrameRegistration node (PushGCFrameRegistration node s)).1.next m
        = s.next m
    ∧ (PopGCFrameRegistration node t).1.m_pGCFrameRegistrations = t.next node
    ∧ (PopGCFrameRegistration node t).2 = false := by
  refine ⟨?_, ?_, ?_, rfl, ?_⟩
  · simp [PopGCFrameRegistration, PushGCFrameRegistration]
  · simp [PopGCFrameRegistration, PushGCFrameRegistration]
  · simp [PopGCFrameRegistration, PushGCFrameRegistration, hm]
  · simpa [PopGCFrameRegistration] using beq_eq_false_iff_ne.mpr ht

/-- C9 witness: a concrete push/pop round-trip on the empty list, and a
concrete rejected pop of a non-head node. -/
theorem C9_gc_frame_registration_witness :
    (PopGCFrameRegistration 0
        (PushGCFrameRegistration 0 regEmpty)).1.m_pGCFrameRegistrations = none
    ∧ (PopGCFrameRegistration 0 regHeadOne).2 = false :=
  ⟨((C9_gc_frame_registration 0 1 regEmpty regHeadOne (by decide)
        (by decide)).1).trans rfl,
    (C9_gc_frame_registration 0 1 regEmpty regHeadOne (by decide)
        (by decide)).2.2.2.2⟩

/-- C10: `IsWithinStackBounds` is the half-open test
`stackLow ≤ p ∧ p < stackHigh`: `stackLow` itself is inside (when the
stack is nonempty), `stackHigh` itself is outside, and the guarding
assertion is exactly that both bounds are nonzero. -/
theorem C10_stack_bounds (s : ThreadState) (p : Nat) :
    (IsWithinStackBounds s p = true ↔
        s.m_pStackLow ≤ p ∧ p < s.m_pStackHigh)
    ∧ IsWithinStackBounds s s.m_pStackHigh = false
    ∧ (s.m_pStackLow < s.m_pStackHigh →
        IsWithinStackBounds s s.m_pStackLow = true)
    ∧ (IsWithinStackBoundsAssert s = true ↔
        s.m_pStackLow ≠ 0 ∧ s.m_pStackHigh ≠ 0) := by
  refine ⟨?_, ?_, ?_, ?_⟩
  · simp [IsWithinStackBounds]
  · simp [IsWithinStackBounds]
  · intro h; simp [IsWithinStackBounds, h]
  · simp [IsWithinStackBoundsAssert]

/-- A concrete uniform draw in [0,1) whose geometric expression
`-log(1-U) * mean` equals exactly 1/2, separating truncation (0) from
ceiling (1). -/
noncomputable def c2U : ℝ := 1 - Real.exp (-(1 / 204800))

/-- C2 counterexample: at the draw `c2U ∈ [0,1)` and the context
`(alloc_ptr, alloc_limit) = (0, 1000)`, the source's truncating cast
yields `combined_limit = 0`, while the claim's `ceil` formula demands
`0 + min(1, 1000) = 1`: the budget is `(uint32_t)(-log(1-U)*mean)`,
truncation toward zero, not `ceil`. -/
theorem C2_ceil_budget_counterexample :
    (0:ℝ) ≤ c2U ∧ c2U < 1
    ∧ (UpdateCombinedLimit true c2U ⟨0, 1000, 0⟩).combined_limit = 0
    ∧ 0 + min (specCeilGeometricBudget c2U) (1000 - 0) = 1
    ∧ (UpdateCombinedLimit true c2U ⟨0, 1000, 0⟩).combined_limit
        ≠ 0 + min (specCeilGeometricBudget c2U) (1000 - 0) := by
  have hexp_pos : (0:ℝ) < Real.exp (-(1 / 204800)) := Real.exp_pos _
  have hexp_lt : Real.exp (-(1 / 204800)) < 1 := by
    have h := Real.exp_lt_exp.mpr (show (-(1 / 204800):ℝ) < 0 by norm_num)
    rwa [Real.exp_zero] at h
  have hx : -Real.log (1 - c2U) * (SamplingDistributionMean : ℝ) = 1 / 2 := by
    have h1 : (1:ℝ) - c2U = Real.exp (-(1 / 204800)) := by
      unfold c2U; ring
    rw [h1, Real.log_exp]
    norm_num [SamplingDistributionMean]
  have hcode : (UpdateCombinedLimit true c2U ⟨0, 1000, 0⟩).combined_limit = 0 := by
    have h0 : (UpdateCombinedLimit true c2U ⟨0, 1000, 0⟩).combined_limit
        = 0 + min (ComputeGeometricRandom c2U) (1000 - 0) := rfl
    have hcg : ComputeGeometricRandom c2U = 0 := by
      unfold ComputeGeometricRandom
      rw [hx]
      exact Nat.floor_eq_zero.mpr (by norm_num)
    rw [h0, hcg]
    decide
  have hspec : 0 + min (specCeilGeometricBudget c2U) (1000 - 0) = 1 := by
    have hcg : specCeilGeometricBudget c2U = 1 := by
      unfold specCeilGeometricBudget
      rw [hx]
      exact (Nat.ceil_eq_iff (by norm_num)).mpr (by norm_num)
    rw [hcg]
    decide
  refine ⟨by unfold c2U; linarith, by unfold c2U; linarith, hcode, hspec, ?_⟩
  rw [hcode, hspec]
  norm_num

/-- C2 (amended): for every draw `U ∈ [0,1)` and every context,
`UpdateCombinedLimit(true)` sets
`combined_limit = alloc_ptr + min(B, alloc_limit - alloc_ptr)` with the
min taken before the pointer addition and the budget
`B = floor(-ln(1-U) * 102400)` (the `(uint32_t)` cast truncates toward
zero; the spec's `ceil` is off by the rounding direction). -/
theorem C2_sampling_budget_formula (U : ℝ) (hU0 : 0 ≤ U) (hU1 : U < 1)
    (c : ee_alloc_context) :
    (UpdateCombinedLimit true U c).combined_limit
      = c.alloc_ptr
        + min ⌊-Real.log (1 - U) * (102400:ℝ)⌋₊
            (c.alloc_limit - c.alloc_ptr) := by
  have h : ((SamplingDistributionMean : ℕ) : ℝ) = (102400:ℝ) := by
    norm_num [SamplingDistributionMean]
  show c.alloc_ptr
        + min ⌊-Real.log (1 - U) * ((SamplingDistributionMean : ℕ) : ℝ)⌋₊
            (c.alloc_limit - c.alloc_ptr)
      = _
  rw [h]

/-- C2 witness: the amended formula applied at the concrete draw 0 on
the context `(0, 1000)` (budget `floor(-ln(1)*mean) = 0`). -/
theorem C2_sampling_budget_formula_witness :
    (UpdateCombinedLimit true 0 ⟨0, 1000, 0⟩).combined_limit
      = 0 + min ⌊-Real.log (1 - 0) * (102400:ℝ)⌋₊ (1000 - 0) :=
  C2_sampling_budget_formula 0 (by norm_num) (by norm_num) ⟨0, 1000, 0⟩

/-- C3: for any context with `alloc_ptr ≤ alloc_limit` (including
`alloc_ptr = alloc_limit`) and any draw, `UpdateCombinedLimit(true)`
establishes `alloc_ptr ≤ combined_limit ≤ alloc_limit`, and the
computed pointer stays within any word size that holds `alloc_limit`
(no overflow: the min is applied before the addition). -/
theorem C3_combined_limit_invariant (U : ℝ) (c : ee_alloc_context)
    (h : c.alloc_ptr ≤ c.alloc_limit) :
    c.alloc_ptr ≤ (UpdateCombinedLimit true U c).combined_limit
    ∧ (UpdateCombinedLimit true U c).combined_limit ≤ c.alloc_limit
    ∧ (c.alloc_limit < 2 ^ 64 →
        (UpdateCombinedLimit true U c).combined_limit < 2 ^ 64) := by
  have hc : (UpdateCombinedLimit true U c).combined_limit
      = c.alloc_ptr
        + min (ComputeGeometricRandom U) (c.alloc_limit - c.alloc_ptr) := rfl
  have hle : (UpdateCombinedLimit true U c).combined_limit ≤ c.alloc_limit := by
    rw [hc]
    calc c.alloc_ptr + min (ComputeGeometricRandom U) (c.alloc_limit - c.alloc_ptr)
        ≤ c.alloc_ptr + (c.alloc_limit - c.alloc_ptr) :=
          Nat.add_le_add_left (Nat.min_le_right _ _) _
      _ = c.alloc_limit := Nat.add_sub_cancel' h
  exact ⟨hc ▸ Nat.le_add_right _ _, hle, fun hw => lt_of_le_of_lt hle hw⟩

/-- C3 witness: the invariant at the boundary context
`alloc_ptr = alloc_limit = 5` with draw 0 (budget clamps to zero). -/
theorem C3_combined_limit_invariant_witness :
    5 ≤ (UpdateCombinedLimit true 0 ⟨5, 5, 0⟩).combined_limit
    ∧ (UpdateCombinedLimit true 0 ⟨5, 5, 0⟩).combined_limit ≤ 5 :=
  ⟨(C3_combined_limit_invariant 0 ⟨5, 5, 0⟩ (by decide)).1,
    (C3_combined_limit_invariant 0 ⟨5, 5, 0⟩ (by decide)).2.1⟩

/-- C10 witness: on concrete bounds [1, 100), the low bound is inside
and the high bound is outside. -/
theorem C10_stack_bounds_witness :
    IsWithinStackBounds preemptiveState 1 = true
    ∧ IsWithinStackBounds preemptiveState 100 = false :=
  ⟨(C10_stack_bounds preemptiveState 1).2.2.1 (by decide),
    (C10_stack_bounds preemptiveState 100).2.1⟩

end ThreadInl
